import Mathlib

/-!
Shallow embedding of `src/objectstore.py` from py-simple-s3-fs.

Strings are modelled as `List Char` (`Str`), bytes payloads as `List Nat`
(`Bytes`).  Python exceptions are values of `PyError`, and fallible
operations return `Except PyError _`.  Python `dict` (insertion ordered,
updating an existing key in place) is modelled by `dictInsert` on an
association list.  External collaborators (boto3, s3fs, the OS filesystem)
are modelled as oracles or as plain key→bytes maps, per the spec's
assumption that they are correct.
-/

/-- Python `str`, modelled as its list of characters. -/
abbrev Str := List Char

/-- Characters of a Lean string literal, used to write concrete Python strings. -/
def str (s : String) : Str := s.data

/-- Bytes payloads, each byte a `Nat`. -/
abbrev Bytes := List Nat

/-- The Python exceptions raised by `objectstore.py` and its collaborators. -/
inductive PyError where
  /-- `KeyError`: a `dict` lookup on a missing key. -/
  | keyError : PyError
  /-- `TypeError`: a call with missing required positional arguments. -/
  | typeError : PyError
  /-- `AssertionError` with its message (`raise AssertionError(msg)` / failed `assert`). -/
  | assertionError : Str → PyError
  /-- `FileNotFoundError` from the local filesystem. -/
  | fileNotFoundError : PyError
  deriving DecidableEq, Repr

/-- Python `s.startswith(pre)`. -/
def startswith (s pre : Str) : Bool := pre.isPrefixOf s

/-- Python `s.endswith(suf)`. -/
def endswith (s suf : Str) : Bool := suf.isSuffixOf s

/-- Python dict assignment `m[k] = v`: updates the value in place when the key
is present (keeping its position), otherwise appends the entry at the end
(insertion order). -/
def dictInsert {κ β : Type} [DecidableEq κ] : List (κ × β) → κ → β → List (κ × β)
  | [], k, v => [(k, v)]
  | (k', v') :: rest, k, v =>
    if k' = k then (k, v) :: rest else (k', v') :: dictInsert rest k v

/-- Python dict lookup `m[k]` as an `Option`. -/
def dictFind {κ β : Type} [DecidableEq κ] (m : List (κ × β)) (k : κ) : Option β :=
  (m.find? (fun e => decide (e.1 = k))).map Prod.snd

/-- Python dict subscript `m[k]`, raising `KeyError` when the key is absent. -/
def dictGet {κ β : Type} [DecidableEq κ] (m : List (κ × β)) (k : κ) : Except PyError β :=
  match dictFind m k with
  | some v => Except.ok v
  | none => Except.error PyError.keyError

/-- `MultiObjectStore.map_prefix_fs`: a dict from optional path prefixes to
backends (`β` abstracts the backend object). -/
abbrev PrefixMap (β : Type) := List (Option Str × β)

/-- `MultiObjectStore.add_fs`: `self.map_prefix_fs[prefix] = fs; return self`. -/
def add_fs {β : Type} (m : PrefixMap β) (fs : β) (pfx : Option Str) : PrefixMap β :=
  dictInsert m pfx fs

/-- A `MultiObjectStore` built from an empty map by a sequence of `add_fs`
registrations, given as (prefix, backend) pairs in registration order. -/
def buildStore {β : Type} (regs : List (Option Str × β)) : PrefixMap β :=
  regs.foldl (fun m r => add_fs m r.2 r.1) []

/-- The comprehension filter in `MultiObjectStore._fs`:
`prefix is not None and path.startswith(prefix)`. -/
def pyPrefixMatch (pfx : Option Str) (path : Str) : Bool :=
  match pfx with
  | none => false
  | some s => startswith path s

/-- `MultiObjectStore._fs`: keep the backends whose non-None prefix is a
string prefix of `path`; return the first if any, else the default
`self.map_prefix_fs[None]` (a `KeyError` when no default was registered). -/
def fsDispatch {β : Type} (m : PrefixMap β) (path : Str) : Except PyError β :=
  match ((m.filter (fun e => pyPrefixMatch e.1 path)).map Prod.snd).head? with
  | some f => Except.ok f
  | none => dictGet m none

/-- The dispatch rule as the spec words it: the first registered entry whose
non-null prefix is a literal string prefix of `path` wins; otherwise the
registered default (prefix = null) entry; otherwise a configuration failure. -/
def dispatchSpec {β : Type} (regs : PrefixMap β) (path : Str) : Except PyError β :=
  match regs.find? (fun e => pyPrefixMatch e.1 path) with
  | some e => Except.ok e.2
  | none =>
    match regs.find? (fun e => decide (e.1 = none)) with
    | some e => Except.ok e.2
    | none => Except.error PyError.keyError


/-- Python string comparison `a <= b` (lexicographic on code points). -/
def strLe : Str → Str → Bool
  | [], _ => true
  | _ :: _, [] => false
  | a :: as, b :: bs => if a = b then strLe as bs else decide (a < b)

/-- One insertion step of a stable insertion sort with `strLe`. -/
def insertSorted (x : Str) : List Str → List Str
  | [] => [x]
  | y :: ys => if strLe x y then x :: y :: ys else y :: insertSorted x ys

/-- Python `sorted` on a list of strings (ascending lexicographic order). -/
def sortStr : List Str → List Str
  | [] => []
  | x :: xs => insertSorted x (sortStr xs)

/-- Python `s.split("/")`: always returns at least one (possibly empty) piece. -/
def splitOnSlash : Str → List Str
  | [] => [[]]
  | c :: rest =>
    if c = '/' then [] :: splitOnSlash rest
    else
      match splitOnSlash rest with
      | s :: ss => (c :: s) :: ss
      | [] => [[c]]

/-- Python `"/".join(parts)`. -/
def joinSlash : List Str → Str
  | [] => []
  | [x] => x
  | x :: rest => x ++ '/' :: joinSlash rest

/-- Python `"".join(parts)`. -/
def concatAll : List Str → Str
  | [] => []
  | s :: ss => s ++ concatAll ss

/-- `S3Query(prefix, recursive)` — the dataclass; the `prefix` field is
spelled `pfx` here. -/
structure S3Query where
  pfx : Option Str := none
  recursive : Option Bool := none
  deriving DecidableEq

/-- The parts of a `boto3 list_objects_v2` response that `_ls_query` reads:
`IsTruncated`, the optional `Contents` (as the list of its `Key` fields) and
the optional `CommonPrefixes` (as the list of its `Prefix` fields). -/
structure S3ListResp where
  isTruncated : Bool
  contents : Option (List Str)
  commonPrefixes : Option (List Str)
  deriving DecidableEq

/-- A local or remote key→bytes map (a dict from full path to payload). -/
abbrev FileMap := List (Str × Bytes)

/-- The external collaborators of `S3ObjectStore`, assumed correct per the
spec: the s3fs object map used by `open`/`get_object`/`put_object`/`exists`,
the raw `s3fs.ls` listing, and the `boto3 list_objects_v2` call keyed by
`(Bucket, Delimiter, Prefix)`. -/
structure S3World where
  s3files : FileMap
  s3fsLsRaw : Str → List Str
  s3api : Str → Str → Str → S3ListResp

/-- The destructive calls this layer can issue to a storage medium. -/
inductive MediumCall where
  /-- `self._s3fs.rm(path, recursive=recursive)` -/
  | s3fsRm : Str → Bool → MediumCall
  /-- `shutil.rmtree(path)` -/
  | shutilRmtree : Str → MediumCall
  /-- `os.remove(path)` -/
  | osRemove : Str → MediumCall
  deriving DecidableEq

namespace S3ObjectStore

/-- `S3ObjectStore._split_path`: `assert(path.startswith("s3://"))`, then
split `path[5:]` on `"/"`; the first part is the bucket, the rest re-joined
with `"/"` is the key (empty when there is a single part). -/
def _split_path (path : Str) : Except PyError (Str × Str) :=
  if startswith path (str "s3://") then
    let parts := splitOnSlash (path.drop 5)
    let bucket_name := parts.headD []
    let key := if parts.length > 1 then joinSlash parts.tail else []
    Except.ok (bucket_name, key)
  else Except.error (PyError.assertionError [])

/-- The native-listing request `_ls_query` issues: bucket from `_split_path`,
delimiter `"/"` unless `recursive`, and prefix `key + prefix`. -/
def lsRequest (path pfx : Str) (recursive : Bool) : Except PyError (Str × Str × Str) :=
  (_split_path path).map fun bk =>
    (bk.1, (if recursive then [] else str "/"), bk.2 ++ pfx)

/-- `S3ObjectStore._ls_query`: issue `list_objects_v2`; fail on a truncated
response; collect `Contents` keys then `CommonPrefixes`; strip one trailing
`"/"` (`f[:-1]`) from entries that end with it; prepend `"s3://" + bucket + "/"`. -/
def _ls_query (w : S3World) (path pfx : Str) (recursive : Bool) :
    Except PyError (List Str) :=
  match lsRequest path pfx recursive with
  | Except.error e => Except.error e
  | Except.ok (bucket, delim, actual) =>
    let rsp := w.s3api bucket delim actual
    if rsp.isTruncated then
      Except.error (PyError.assertionError (str "Truncated responses not supported yet"))
    else
      let files := (match rsp.contents with | some ks => ks | none => []) ++
        (match rsp.commonPrefixes with | some ps => ps | none => [])
      let files := files.map fun f => if endswith f (str "/") then f.dropLast else f
      Except.ok (files.map fun f => str "s3://" ++ bucket ++ str "/" ++ f)

/-- `S3ObjectStore.ls`: with no query, sort the s3fs listing with `"s3://"`
prepended.  With a query, the source executes `sorted(self._ls_query())` —
but `_ls_query` requires the positional arguments `path` and `prefix`, so the
call raises `TypeError` before any native listing is issued. -/
def ls (w : S3World) (path : Str) (query : Option S3Query) :
    Except PyError (List Str) :=
  match query with
  | none => Except.ok (sortStr ((w.s3fsLsRaw path).map fun f => str "s3://" ++ f))
  | some _ => Except.error PyError.typeError

/-- `S3ObjectStore.rm`: delegates to `self._s3fs.rm(path, recursive=recursive)`
unconditionally — there is no path-length guard on this backend. -/
def rm (path : Str) (recursive : Bool) : Except PyError (List MediumCall) :=
  Except.ok [MediumCall.s3fsRm path recursive]

/-- `S3ObjectStore.exists`: `self._s3fs.exists(path)`, over the s3fs map. -/
def existsb (w : S3World) (path : Str) : Bool :=
  (dictFind w.s3files path).isSome

/-- `S3ObjectStore.get_object`: open for `'rb'` and read — a lookup in the
s3fs object map, `FileNotFoundError` when absent. -/
def get_object (w : S3World) (path : Str) : Except PyError Bytes :=
  match dictFind w.s3files path with
  | some b => Except.ok b
  | none => Except.error PyError.fileNotFoundError

/-- `S3ObjectStore.put_object`: open for `'wb'` and write — an insert into
the s3fs object map. -/
def put_object (w : S3World) (path : Str) (data : Bytes) : S3World :=
  { w with s3files := dictInsert w.s3files path data }

/-- The loop body of `S3ObjectStore.path_join`: append `"/"` to every
element but the last that does not already end with `"/"`. -/
def addTrailingSlashes : List Str → List Str
  | [] => []
  | [x] => [x]
  | x :: y :: rest =>
    (if endswith x (str "/") then x else x ++ str "/") :: addTrailingSlashes (y :: rest)

/-- `S3ObjectStore.path_join`: drop empty segments, add `"/"` where a
non-final segment lacks it, and concatenate. -/
def path_join (p : Str) (paths : List Str) : Str :=
  concatAll (addTrailingSlashes ((p :: paths).filter fun s => decide (s ≠ [])))

end S3ObjectStore

namespace LocalObjectStore

/-- `LocalObjectStore.rm`: with `recursive`, a path shorter than 5 characters
raises `AssertionError` before `shutil.rmtree` is called; otherwise
`shutil.rmtree(path)`; non-recursive removal is `os.remove(path)`. -/
def rm (path : Str) (recursive : Bool) : Except PyError (List MediumCall) :=
  if recursive then
    if path.length < 5 then
      Except.error (PyError.assertionError
        (str "You probably didn't intend to recursively remove folder " ++ path))
    else Except.ok [MediumCall.shutilRmtree path]
  else Except.ok [MediumCall.osRemove path]

/-- `LocalObjectStore.exists`: `os.path.exists(path)`, over the local file map. -/
def existsb (st : FileMap) (path : Str) : Bool :=
  (dictFind st path).isSome

/-- `LocalObjectStore.get_object`: open `'rb'` and read — a lookup in the
local file map, `FileNotFoundError` when the file is absent. -/
def get_object (st : FileMap) (path : Str) : Except PyError Bytes :=
  match dictFind st path with
  | some b => Except.ok b
  | none => Except.error PyError.fileNotFoundError

/-- `LocalObjectStore.put_object`: `os.makedirs(dirname, exist_ok=True)` then
open `'wb'` and write — on the assumed-correct local filesystem this is an
insert into the file map (directory creation has no observable effect on the
path→bytes view). -/
def put_object (st : FileMap) (path : Str) (data : Bytes) : FileMap :=
  dictInsert st path data

end LocalObjectStore

namespace InMemoryObjectStore

/-- `InMemoryObjectStore.get_object`: `self.perPath_data[path]` — a dict
subscript, `KeyError` when the key is absent. -/
def get_object (st : FileMap) (path : Str) : Except PyError Bytes :=
  dictGet st path

/-- `InMemoryObjectStore.put_object`: `self.perPath_data[path] = data`. -/
def put_object (st : FileMap) (path : Str) (data : Bytes) : FileMap :=
  dictInsert st path data

/-- `InMemoryObjectStore.ls`: `return self.perPath_data[path]` — the raw
stored bytes, not a path list. -/
def ls (st : FileMap) (path : Str) : Except PyError Bytes :=
  dictGet st path

/-- `InMemoryObjectStore.rm`: the body is `pass` — the mapping is unchanged. -/
def rm (st : FileMap) (path : Str) (recursive : Bool) : FileMap :=
  st

/-- `InMemoryObjectStore.exists`: the body is `pass` — the call returns
Python `None` (modelled as `none`), never `True`. -/
def existsb (st : FileMap) (path : Str) : Option Bool :=
  none

/-- `perPath_data = {}` is a *class* attribute of `InMemoryObjectStore`, and
`put_object` mutates it in place without ever rebinding an instance
attribute, so every instance reads and writes the same dict.  This view
makes the instance identity explicit: `cls` is the class-level dict and
`inst` the instance a method is invoked on, which the code never consults. -/
def put_object_via (cls : FileMap) (inst : Nat) (path : Str) (data : Bytes) : FileMap :=
  dictInsert cls path data

/-- Instance-explicit view of `get_object` (see `put_object_via`): the
lookup reads the class-level dict, whatever instance is used. -/
def get_object_via (cls : FileMap) (inst : Nat) (path : Str) : Except PyError Bytes :=
  dictGet cls path

end InMemoryObjectStore

/-- `ObjectStore.exists_list` default implementation:
`[p for p in paths if self.exists(p)]`, with the backend's `exists` method
abstracted as a boolean predicate on paths. -/
def exists_list (existsF : Str → Bool) (paths : List Str) : List Str :=
  paths.filter existsF

/-- The `ObjectStore` interface as seen by `MultiObjectStore`: one function
per public method, each returning the method's value (or raised exception)
for given arguments.  `openf` returns an opaque handle identifier. -/
structure BackendOps where
  get_object : Str → Except PyError Bytes
  put_object : Str → Bytes → Except PyError Unit
  ls : Str → Option S3Query → Except PyError (List Str)
  rm : Str → Bool → Except PyError Unit
  existsb : Str → Except PyError Bool
  openf : Str → Str → Except PyError Nat
  path_join : Str → List Str → Except PyError Str

namespace MultiObjectStore

/-- `MultiObjectStore.put_object`: `self._fs(path).put_object(path, data)`. -/
def put_object (m : PrefixMap BackendOps) (path : Str) (data : Bytes) :
    Except PyError Unit :=
  match fsDispatch m path with
  | Except.ok fs => fs.put_object path data
  | Except.error e => Except.error e

/-- `MultiObjectStore.get_object`: `self._fs(path).get_object(path)`. -/
def get_object (m : PrefixMap BackendOps) (path : Str) : Except PyError Bytes :=
  match fsDispatch m path with
  | Except.ok fs => fs.get_object path
  | Except.error e => Except.error e

/-- `MultiObjectStore.exists`: `self._fs(path).exists(path)`. -/
def existsb (m : PrefixMap BackendOps) (path : Str) : Except PyError Bool :=
  match fsDispatch m path with
  | Except.ok fs => fs.existsb path
  | Except.error e => Except.error e

/-- `MultiObjectStore.ls`: `self._fs(path).ls(path)` — note that the `query`
argument the caller passed is *not* forwarded; the backend's `ls` is always
invoked with its default `query=None`. -/
def ls (m : PrefixMap BackendOps) (path : Str) (query : Option S3Query) :
    Except PyError (List Str) :=
  match fsDispatch m path with
  | Except.ok fs => fs.ls path none
  | Except.error e => Except.error e

/-- `MultiObjectStore.rm`: `self._fs(path).rm(path, recursive)`. -/
def rm (m : PrefixMap BackendOps) (path : Str) (recursive : Bool) :
    Except PyError Unit :=
  match fsDispatch m path with
  | Except.ok fs => fs.rm path recursive
  | Except.error e => Except.error e

/-- `MultiObjectStore.open`: `self._fs(file).open(file, mode, ...)`. -/
def openf (m : PrefixMap BackendOps) (file mode : Str) : Except PyError Nat :=
  match fsDispatch m file with
  | Except.ok fs => fs.openf file mode
  | Except.error e => Except.error e

/-- `MultiObjectStore.path_join`: `self._fs(p).path_join(p, *paths)`. -/
def path_join (m : PrefixMap BackendOps) (p : Str) (paths : List Str) :
    Except PyError Str :=
  match fsDispatch m p with
  | Except.ok fs => fs.path_join p paths
  | Except.error e => Except.error e

end MultiObjectStore

/-- The cloud backend packaged as its `BackendOps` record over a given
`S3World` (method-by-method return values of `S3ObjectStore`). -/
def S3BackendOps (w : S3World) : BackendOps where
  get_object := fun p => S3ObjectStore.get_object w p
  put_object := fun _ _ => Except.ok ()
  ls := fun p q => S3ObjectStore.ls w p q
  rm := fun p r => (S3ObjectStore.rm p r).map fun _ => ()
  existsb := fun p => Except.ok (S3ObjectStore.existsb w p)
  openf := fun _ _ => Except.ok 0
  path_join := fun p ps => Except.ok (S3ObjectStore.path_join p ps)

/-- A concrete `S3World`: no objects, empty raw listings, non-truncated empty
native listing responses. -/
def w0 : S3World :=
  { s3files := []
    s3fsLsRaw := fun _ => []
    s3api := fun _ _ _ => { isTruncated := false, contents := none, commonPrefixes := none } }

/-- `S3Query()` with both fields at their `None` defaults. -/
def q0 : S3Query := {}

/-- A concrete cloud path. -/
def pth0 : Str := str "s3://bucket/key"

/-- A `MultiObjectStore` with the cloud backend registered under `"s3://"`,
as `create_multi_object_store` registers it. -/
def m0 : PrefixMap BackendOps := add_fs [] (S3BackendOps w0) (some (str "s3://"))

/-- Whether a string contains two adjacent `'/'` characters (a doubled
separator). -/
def hasDoubleSlash : Str → Bool
  | '/' :: '/' :: _ => true
  | _ :: rest => hasDoubleSlash rest
  | [] => false

/-- A concrete `S3World` whose native listing responses all report
truncation. -/
def wTrunc : S3World :=
  { s3files := []
    s3fsLsRaw := fun _ => []
    s3api := fun _ _ _ => { isTruncated := true, contents := none, commonPrefixes := none } }

lemma head?_filter_map {α β : Type} (p : α → Bool) (f : α → β) :
    ∀ l : List α, ((l.filter p).map f).head? = (l.find? p).map f := by
  intro l
  induction l with
  | nil => rfl
  | cons x xs ih =>
    by_cases h : p x = true
    · simp [List.filter_cons, List.find?, h]
    · simp only [List.filter_cons, List.find?, h, if_neg, Bool.false_eq_true,
        not_false_eq_true, ite_false]
      simp [ih]

lemma dictGet_none_eq_find {β : Type} (m : PrefixMap β) :
    dictGet m none =
      match m.find? (fun e => decide (e.1 = none)) with
      | some e => Except.ok e.2
      | none => Except.error PyError.keyError := by
  unfold dictGet dictFind
  cases m.find? (fun e => decide (e.1 = (none : Option Str))) <;> simp

lemma fsDispatch_eq_dispatchSpec {β : Type} (m : PrefixMap β) (path : Str) :
    fsDispatch m path = dispatchSpec m path := by
  unfold fsDispatch dispatchSpec
  rw [head?_filter_map]
  cases h : m.find? (fun e => pyPrefixMatch e.1 path) with
  | none => simpa using dictGet_none_eq_find m
  | some e => simp

lemma dictInsert_of_not_mem {κ β : Type} [DecidableEq κ]
    (m : List (κ × β)) (k : κ) (v : β) (h : k ∉ m.map Prod.fst) :
    dictInsert m k v = m ++ [(k, v)] := by
  induction m with
  | nil => rfl
  | cons e rest ih =>
    simp only [List.map_cons, List.mem_cons] at h
    push_neg at h
    unfold dictInsert
    rw [if_neg (Ne.symm h.1), ih h.2]
    rfl

lemma buildStore_go {β : Type} :
    ∀ (regs : List (Option Str × β)) (m : PrefixMap β),
      (m.map Prod.fst ++ regs.map Prod.fst).Nodup →
      regs.foldl (fun m r => add_fs m r.2 r.1) m = m ++ regs := by
  intro regs
  induction regs with
  | nil => intro m _; simp
  | cons r rest ih =>
    intro m h
    obtain ⟨k, v⟩ := r
    have hm : k ∉ m.map Prod.fst := by
      intro hmem
      have hk : k ∈ ((k, v) :: rest).map Prod.fst := List.mem_cons_self _ _
      exact List.disjoint_left.1 ((List.nodup_append.1 h).2.2) hmem hk
    have hstep : add_fs m v k = m ++ [(k, v)] := by
      unfold add_fs
      rw [dictInsert_of_not_mem m k v hm]
    have hrest : ((m ++ [(k, v)]).map Prod.fst ++ rest.map Prod.fst).Nodup := by
      simp only [List.map_append, List.map_cons, List.map_nil] at h ⊢
      simpa [List.append_assoc, List.cons_append, List.nil_append,
        List.singleton_append] using h
    have := ih (m ++ [(k, v)]) hrest
    simp only [List.foldl_cons, hstep]
    rw [this]
    simp

lemma buildStore_eq_regs {β : Type} (regs : List (Option Str × β))
    (h : (regs.map Prod.fst).Nodup) : buildStore regs = regs := by
  have := buildStore_go (β := β) regs [] (by simpa using h)
  simpa [buildStore] using this

deriving instance DecidableEq for Except

/-- C1: for every path and every `MultiObjectStore` built by a sequence of
`add_fs` registrations (with pairwise-distinct prefix keys, as a dict update
would otherwise replace an earlier backend in place), `_fs` selects the
first-registered backend whose non-null prefix is a literal string prefix of
the path; if none matches, the registered default (prefix = `None`) backend;
and if no default was registered it fails (a `KeyError` at dispatch time)
rather than returning any backend — i.e. dispatch agrees with `dispatchSpec`,
the spec's wording of the rule. -/
theorem c1_router_dispatch {β : Type} (regs : List (Option Str × β)) (path : Str)
    (h : (regs.map Prod.fst).Nodup) :
    fsDispatch (buildStore regs) path = dispatchSpec regs path := by
  rw [buildStore_eq_regs regs h, fsDispatch_eq_dispatchSpec]

/-- Witness for C1 at a concrete registration sequence and path. -/
theorem c1_router_dispatch_witness :
    ((([(some (str "s3://"), 0), (none, 1)] : List (Option Str × Nat)).map Prod.fst).Nodup) ∧
    fsDispatch (buildStore [(some (str "s3://"), 0), (none, 1)]) (str "s3://bucket/key") =
      dispatchSpec [(some (str "s3://"), 0), (none, 1)] (str "s3://bucket/key") :=
  ⟨by decide, c1_router_dispatch _ _ (by decide)⟩
lemma dictFind_dictInsert {κ β : Type} [DecidableEq κ] (m : List (κ × β)) (k : κ) (v : β) :
    dictFind (dictInsert m k v) k = some v := by
  induction m with
  | nil => simp [dictInsert, dictFind, List.find?]
  | cons e rest ih =>
    obtain ⟨k', v'⟩ := e
    by_cases h : k' = k
    · subst h
      simp [dictInsert, dictFind, List.find?]
    · simpa [dictInsert, h, dictFind, List.find?] using ih

lemma count_exists_list (f : Str → Bool) (paths : List Str) (p : Str) :
    List.count p (exists_list f paths) = if f p then List.count p paths else 0 := by
  by_cases h : f p = true
  · simp [exists_list, h]
  · have hnot : p ∉ exists_list f paths := by
      simp [exists_list, List.mem_filter, h]
    simp [h, List.count_eq_zero.2 hnot]

lemma str_slash : str "/" = ['/'] := rfl

lemma concat_addTrailingSlashes (L : List Str)
    (h : ∀ s ∈ L, endswith s (str "/") = false) :
    concatAll (S3ObjectStore.addTrailingSlashes L) = joinSlash L := by
  induction L with
  | nil => rfl
  | cons x rest ih =>
    cases rest with
    | nil => simp [S3ObjectStore.addTrailingSlashes, concatAll, joinSlash]
    | cons y ys =>
      have hx : endswith x ['/'] = false := by
        simpa [str_slash] using h x (List.mem_cons_self _ _)
      have h' : ∀ s ∈ y :: ys, endswith s (str "/") = false :=
        fun s hs => h s (List.mem_cons_of_mem _ hs)
      simp [S3ObjectStore.addTrailingSlashes, hx, concatAll, joinSlash, ih h',
        List.append_assoc, str_slash]

/-- C2 counterexample: on the cloud backend, recursive removal of the
one-character path `"a"` (well below the minimum safe length 5) does not
raise: it succeeds and issues the destructive `s3fs.rm` call to the medium —
`S3ObjectStore.rm` has no path-length guard. -/
theorem c2_cloud_rm_unguarded_cex :
    (str "a").length < 5 ∧
    S3ObjectStore.rm (str "a") true = Except.ok [MediumCall.s3fsRm (str "a") true] :=
  ⟨by decide, rfl⟩

/-- C2 (amended): only the local backend guards recursive removal — for every
path shorter than 5 characters, `LocalObjectStore.rm(path, recursive=True)`
raises `AssertionError` before any destructive call is issued, while
`S3ObjectStore.rm` forwards the same request to `s3fs.rm` unconditionally. -/
theorem c2_local_rm_guard (p : Str) (h : p.length < 5) :
    LocalObjectStore.rm p true =
      Except.error (PyError.assertionError
        (str "You probably didn't intend to recursively remove folder " ++ p)) ∧
    S3ObjectStore.rm p true = Except.ok [MediumCall.s3fsRm p true] := by
  constructor
  · simp [LocalObjectStore.rm, h]
  · rfl

/-- Witness for C2 (amended) at the concrete path `"a"`. -/
theorem c2_local_rm_guard_witness :
    (str "a").length < 5 ∧
    (LocalObjectStore.rm (str "a") true =
      Except.error (PyError.assertionError
        (str "You probably didn't intend to recursively remove folder " ++ str "a")) ∧
    S3ObjectStore.rm (str "a") true = Except.ok [MediumCall.s3fsRm (str "a") true]) :=
  ⟨by decide, c2_local_rm_guard (str "a") (by decide)⟩

/-- C3: evaluating the code at the failing input — `ls` with a query on the
cloud backend executes `sorted(self._ls_query())`, a call missing the
required positional arguments of `_ls_query`, so it raises `TypeError`
before any native listing is issued, instead of performing the specified
delimiter/strip/re-attach/sort listing. -/
theorem c3_cloud_ls_with_query_typeerror :
    S3ObjectStore.ls w0 (str "s3://bucket/data")
      (some { pfx := some (str "x"), recursive := some false }) =
      Except.error PyError.typeError := rfl

/-- C4 counterexample: with the cloud backend registered under `"s3://"` (as
`create_multi_object_store` does) and a non-`None` query, the Router's `ls`
does not return what the selected backend's `ls` returns on the same
arguments: the Router drops the query (returning the unfiltered listing)
while the backend called with the same query raises `TypeError`. -/
theorem c4_ls_drops_query_cex :
    fsDispatch m0 pth0 = Except.ok (S3BackendOps w0) ∧
    MultiObjectStore.ls m0 pth0 (some q0) = Except.ok [] ∧
    (S3BackendOps w0).ls pth0 (some q0) = Except.error PyError.typeError ∧
    MultiObjectStore.ls m0 pth0 (some q0) ≠ (S3BackendOps w0).ls pth0 (some q0) :=
  ⟨rfl, by decide, rfl, by decide⟩

/-- C4 (amended): every public Router operation is dispatch-then-delegate
with its arguments forwarded unchanged, except `ls`, which always invokes
the selected backend's `ls` with `query=None`, discarding the caller's
query. -/
theorem c4_delegation (m : PrefixMap BackendOps) (p mo : Str) (d : Bytes)
    (q : Option S3Query) (r : Bool) (ps : List Str) (b : BackendOps)
    (h : fsDispatch m p = Except.ok b) :
    MultiObjectStore.get_object m p = b.get_object p ∧
    MultiObjectStore.put_object m p d = b.put_object p d ∧
    MultiObjectStore.existsb m p = b.existsb p ∧
    MultiObjectStore.rm m p r = b.rm p r ∧
    MultiObjectStore.openf m p mo = b.openf p mo ∧
    MultiObjectStore.path_join m p ps = b.path_join p ps ∧
    MultiObjectStore.ls m p q = b.ls p none := by
  refine ⟨?_, ?_, ?_, ?_, ?_, ?_, ?_⟩ <;>
    simp [MultiObjectStore.get_object, MultiObjectStore.put_object,
      MultiObjectStore.existsb, MultiObjectStore.rm, MultiObjectStore.openf,
      MultiObjectStore.path_join, MultiObjectStore.ls, h]

/-- Witness for C4 (amended) on the concrete store `m0`. -/
theorem c4_delegation_witness :
    MultiObjectStore.get_object m0 pth0 = (S3BackendOps w0).get_object pth0 ∧
    MultiObjectStore.put_object m0 pth0 [7] = (S3BackendOps w0).put_object pth0 [7] ∧
    MultiObjectStore.existsb m0 pth0 = (S3BackendOps w0).existsb pth0 ∧
    MultiObjectStore.rm m0 pth0 false = (S3BackendOps w0).rm pth0 false ∧
    MultiObjectStore.openf m0 pth0 (str "rb") = (S3BackendOps w0).openf pth0 (str "rb") ∧
    MultiObjectStore.path_join m0 pth0 [str "x"] = (S3BackendOps w0).path_join pth0 [str "x"] ∧
    MultiObjectStore.ls m0 pth0 (some q0) = (S3BackendOps w0).ls pth0 none :=
  c4_delegation m0 pth0 (str "rb") [7] (some q0) false [str "x"] (S3BackendOps w0) rfl

/-- C5: whenever the native `list_objects_v2` response for the request that
`_ls_query` issues reports `IsTruncated`, `_ls_query` raises the explicit
"Truncated responses not supported yet" `AssertionError` and returns no
list. -/
theorem c5_truncated_fails (w : S3World) (p pfx : Str) (recursive : Bool)
    (b d a : Str)
    (h1 : S3ObjectStore.lsRequest p pfx recursive = Except.ok (b, d, a))
    (h2 : (w.s3api b d a).isTruncated = true) :
    S3ObjectStore._ls_query w p pfx recursive =
      Except.error (PyError.assertionError
        (str "Truncated responses not supported yet")) := by
  simp [S3ObjectStore._ls_query, h1, h2]

/-- Witness for C5: a world whose responses are all truncated, at a concrete
path and prefix. -/
theorem c5_truncated_fails_witness :
    S3ObjectStore.lsRequest (str "s3://bucket/dir/") (str "x") false =
      Except.ok (str "bucket", str "/", str "dir/x") ∧
    (wTrunc.s3api (str "bucket") (str "/") (str "dir/x")).isTruncated = true ∧
    S3ObjectStore._ls_query wTrunc (str "s3://bucket/dir/") (str "x") false =
      Except.error (PyError.assertionError
        (str "Truncated responses not supported yet")) :=
  ⟨by decide, rfl,
    c5_truncated_fails wTrunc (str "s3://bucket/dir/") (str "x") false
      (str "bucket") (str "/") (str "dir/x") (by decide) rfl⟩

/-- C6: the put/get round-trip — for every state, path and non-empty payload,
`get_object` after `put_object` on the same path returns the payload, on the
in-memory, local and cloud backends. -/
theorem c6_round_trip (st1 st2 : FileMap) (w : S3World) (p : Str) (b : Bytes)
    (h : b ≠ []) :
    InMemoryObjectStore.get_object (InMemoryObjectStore.put_object st1 p b) p =
      Except.ok b ∧
    LocalObjectStore.get_object (LocalObjectStore.put_object st2 p b) p =
      Except.ok b ∧
    S3ObjectStore.get_object (S3ObjectStore.put_object w p b) p = Except.ok b := by
  refine ⟨?_, ?_, ?_⟩ <;>
    simp [InMemoryObjectStore.get_object, InMemoryObjectStore.put_object,
      LocalObjectStore.get_object, LocalObjectStore.put_object,
      S3ObjectStore.get_object, S3ObjectStore.put_object, dictGet,
      dictFind_dictInsert]

/-- Witness for C6 at a concrete path and payload. -/
theorem c6_round_trip_witness :
    ([7] : Bytes) ≠ [] ∧
    (InMemoryObjectStore.get_object
        (InMemoryObjectStore.put_object [] (str "a.txt") [7]) (str "a.txt") =
      Except.ok [7] ∧
    LocalObjectStore.get_object
        (LocalObjectStore.put_object [] (str "a.txt") [7]) (str "a.txt") =
      Except.ok [7] ∧
    S3ObjectStore.get_object
        (S3ObjectStore.put_object w0 (str "a.txt") [7]) (str "a.txt") =
      Except.ok [7]) :=
  ⟨by decide, c6_round_trip [] [] w0 (str "a.txt") [7] (by decide)⟩

/-- C7 counterexample: on the in-memory backend, after
`put_object("f1.txt", [1])` the `exists` method still returns Python `None`
(its body is `pass`), not `True`; and `rm` leaves the stored mapping
unchanged. -/
theorem c7_inmemory_exists_stub_cex :
    InMemoryObjectStore.existsb
        (InMemoryObjectStore.put_object [] (str "f1.txt") [1]) (str "f1.txt") = none ∧
    (none : Option Bool) ≠ some true ∧
    InMemoryObjectStore.rm
        (InMemoryObjectStore.put_object [] (str "f1.txt") [1]) (str "f1.txt") false =
      InMemoryObjectStore.put_object [] (str "f1.txt") [1] :=
  ⟨rfl, by decide, rfl⟩

/-- C7 (amended): the in-memory backend satisfies the get/put contract —
`get_object` after `put_object` returns the stored bytes — but its `exists`
is a stub that always returns `None` (never `True`, before or after a put)
and its `rm` is a no-op that removes nothing. -/
theorem c7_inmemory_contract (st : FileMap) (p : Str) (b : Bytes) (r : Bool) :
    InMemoryObjectStore.get_object (InMemoryObjectStore.put_object st p b) p =
      Except.ok b ∧
    InMemoryObjectStore.existsb st p = none ∧
    InMemoryObjectStore.rm st p r = st := by
  refine ⟨?_, rfl, rfl⟩
  simp [InMemoryObjectStore.get_object, InMemoryObjectStore.put_object, dictGet,
    dictFind_dictInsert]

/-- C8: the default `exists_list` returns exactly the input paths whose
`exists` check is true, in input order: the result is a sublist (ordered
subsequence) of the input, an element occurs in it as often as it occurs in
the input when it satisfies `exists` and never otherwise, and membership is
exactly membership-and-existence. -/
theorem c8_exists_list (f : Str → Bool) (paths : List Str) :
    List.Sublist (exists_list f paths) paths ∧
    (∀ p : Str, List.count p (exists_list f paths) =
      if f p then List.count p paths else 0) ∧
    (∀ p : Str, p ∈ exists_list f paths ↔ p ∈ paths ∧ f p = true) := by
  refine ⟨List.filter_sublist paths, fun p => count_exists_list f paths p, fun p => ?_⟩
  simp [exists_list, List.mem_filter]

/-- C9 counterexample: joining the segments `"a"` and `"/b"` — neither of
which contains a doubled separator — produces `"a//b"`: the join inserts a
`"/"` although the next segment begins with one, so the result contains a
doubled separator introduced by the join. -/
theorem c9_doubled_separator_cex :
    hasDoubleSlash (str "a") = false ∧
    hasDoubleSlash (str "/b") = false ∧
    S3ObjectStore.path_join (str "a") [str "/b"] = str "a//b" ∧
    hasDoubleSlash (S3ObjectStore.path_join (str "a") [str "/b"]) = true :=
  ⟨rfl, rfl, by decide, by decide⟩

/-- C9 (amended): `path_join` ignores empty segments and appends exactly one
`"/"` after each non-final segment that does not already end with `"/"`; in
particular, when no segment ends with `"/"`, the result is exactly the
non-empty segments interleaved with single `"/"` separators (none omitted) —
but a segment beginning with `"/"` still yields a doubled separator. -/
theorem c9_path_join_single_sep (p : Str) (paths : List Str)
    (h : ∀ s ∈ p :: paths, endswith s (str "/") = false) :
    S3ObjectStore.path_join p paths =
      joinSlash ((p :: paths).filter fun s => decide (s ≠ [])) := by
  unfold S3ObjectStore.path_join
  exact concat_addTrailingSlashes _ (fun s hs => h s (List.mem_of_mem_filter hs))

/-- Witness for C9 (amended): joining `"a"`, `""`, `"b"` gives `"a/b"`. -/
theorem c9_path_join_single_sep_witness :
    (∀ s ∈ [str "a", str "", str "b"], endswith s (str "/") = false) ∧
    S3ObjectStore.path_join (str "a") [str "", str "b"] =
      joinSlash (([str "a", str "", str "b"]).filter fun s => decide (s ≠ [])) :=
  ⟨by decide, c9_path_join_single_sep (str "a") [str "", str "b"] (by decide)⟩

/-- C10: `perPath_data` is a class-level dict shared by all
`InMemoryObjectStore` instances, so a payload stored through any instance
`instA` is returned by `get_object` through any instance `instB`. -/
theorem c10_shared_class_state (cls : FileMap) (instA instB : Nat) (p : Str)
    (b : Bytes) :
    InMemoryObjectStore.get_object_via
      (InMemoryObjectStore.put_object_via cls instA p b) instB p = Except.ok b := by
  simp [InMemoryObjectStore.get_object_via, InMemoryObjectStore.put_object_via,
    dictGet, dictFind_dictInsert]
